import Mathlib

set_option maxRecDepth 100000

/-!
Shallow embedding of the version-monitoring engine in `scraper.py` of the
StandardUpdate repository, together with theorems settling the spec claims.

The embedding models, from the source:
- the MD5-based content fingerprint (`hashlib.md5(text.encode()).hexdigest()[:12]`),
- the per-source extraction strategies `fetch_ecfr_data`, `fetch_ised_data`,
  `fetch_etsi_data` (regex searches are embedded as explicit scanners over the
  character list of the document text),
- the retry loop shared by the fetchers (`for attempt in range(MAX_RETRIES)`),
- the dispatcher `check_standard`,
- the monitor engine `run_monitor` (diff against the stored baseline, change
  log insertion and truncation, run metadata), and
- the notification decision logic of `main` (update notification and the
  weekly heartbeat).

Network transport and HTML parsing are treated as capabilities: a fetch
attempt either yields the document (its rendered text, raw text, and link
list, exactly the views the Python code reads off the HTTP response and the
BeautifulSoup object) or fails.
-/

/-! ## MD5 (the content fingerprint of `scraper.py`)

`hashlib.md5(response.text.encode()).hexdigest()[:12]`, embedded over byte
lists with 32-bit arithmetic written as `Nat` modulo `2 ^ 32`. -/

/-- Reduce to a 32-bit word. -/
def w32 (n : Nat) : Nat := n % 4294967296

/-- Left-rotate a 32-bit word by `s` bits (for `x < 2 ^ 32`). -/
def rotl32 (x s : Nat) : Nat := w32 ((x <<< s) ||| (x >>> (32 - s)))

/-- The 64 MD5 round constants `K` (floor of abs(sin(i+1)) * 2^32). -/
def md5K : List Nat :=
  [0xd76aa478, 0xe8c7b756, 0x242070db, 0xc1bdceee,
   0xf57c0faf, 0x4787c62a, 0xa8304613, 0xfd469501,
   0x698098d8, 0x8b44f7af, 0xffff5bb1, 0x895cd7be,
   0x6b901122, 0xfd987193, 0xa679438e, 0x49b40821,
   0xf61e2562, 0xc040b340, 0x265e5a51, 0xe9b6c7aa,
   0xd62f105d, 0x02441453, 0xd8a1e681, 0xe7d3fbc8,
   0x21e1cde6, 0xc33707d6, 0xf4d50d87, 0x455a14ed,
   0xa9e3e905, 0xfcefa3f8, 0x676f02d9, 0x8d2a4c8a,
   0xfffa3942, 0x8771f681, 0x6d9d6122, 0xfde5380c,
   0xa4beea44, 0x4bdecfa9, 0xf6bb4b60, 0xbebfbc70,
   0x289b7ec6, 0xeaa127fa, 0xd4ef3085, 0x04881d05,
   0xd9d4d039, 0xe6db99e5, 0x1fa27cf8, 0xc4ac5665,
   0xf4292244, 0x432aff97, 0xab9423a7, 0xfc93a039,
   0x655b59c3, 0x8f0ccc92, 0xffeff47d, 0x85845dd1,
   0x6fa87e4f, 0xfe2ce6e0, 0xa3014314, 0x4e0811a1,
   0xf7537e82, 0xbd3af235, 0x2ad7d2bb, 0xeb86d391]

/-- The 64 MD5 per-round left-rotation amounts. -/
def md5S : List Nat :=
  [7, 12, 17, 22, 7, 12, 17, 22, 7, 12, 17, 22, 7, 12, 17, 22,
   5, 9, 14, 20, 5, 9, 14, 20, 5, 9, 14, 20, 5, 9, 14, 20,
   4, 11, 16, 23, 4, 11, 16, 23, 4, 11, 16, 23, 4, 11, 16, 23,
   6, 10, 15, 21, 6, 10, 15, 21, 6, 10, 15, 21, 6, 10, 15, 21]

/-- MD5 padding: append the 0x80 marker byte, zero bytes up to 56 mod 64,
then the original bit length as eight little-endian bytes. -/
def md5pad (msg : List Nat) : List Nat :=
  let len := msg.length
  let zeros := (119 - len % 64) % 64
  let bitLen := (len * 8) % (2 ^ 64)
  msg ++ [0x80] ++ List.replicate zeros 0 ++
    (List.range 8).map (fun i => (bitLen >>> (8 * i)) % 256)

/-- One MD5 round `i` on state `(A, B, C, D)` with message-word accessor `M`. -/
def md5step (M : Nat → Nat) (st : Nat × Nat × Nat × Nat) (i : Nat) :
    Nat × Nat × Nat × Nat :=
  let a := st.1
  let b := st.2.1
  let c := st.2.2.1
  let d := st.2.2.2
  let f :=
    if i < 16 then (b &&& c) ||| ((b ^^^ 0xffffffff) &&& d)
    else if i < 32 then (d &&& b) ||| ((d ^^^ 0xffffffff) &&& c)
    else if i < 48 then b ^^^ c ^^^ d
    else c ^^^ (b ||| (d ^^^ 0xffffffff))
  let g :=
    if i < 16 then i
    else if i < 32 then (5 * i + 1) % 16
    else if i < 48 then (3 * i + 5) % 16
    else (7 * i) % 16
  let tmp := w32 (a + f + md5K.getD i 0 + M g)
  let b2 := w32 (b + rotl32 tmp (md5S.getD i 0))
  (d, b2, b, c)

/-- Process one 64-byte chunk, updating the running MD5 state. -/
def md5chunk (st : Nat × Nat × Nat × Nat) (chunk : List Nat) :
    Nat × Nat × Nat × Nat :=
  let M := fun g => chunk.getD (4 * g) 0 + 256 * chunk.getD (4 * g + 1) 0 +
    65536 * chunk.getD (4 * g + 2) 0 + 16777216 * chunk.getD (4 * g + 3) 0
  let st2 := (List.range 64).foldl (md5step M) st
  (w32 (st.1 + st2.1), w32 (st.2.1 + st2.2.1),
   w32 (st.2.2.1 + st2.2.2.1), w32 (st.2.2.2 + st2.2.2.2))

/-- Fold the MD5 compression over consecutive 64-byte chunks (structural
recursion on a fuel counter so the kernel can evaluate; each step consumes 64
bytes, so `bytes.length` fuel always suffices). -/
def md5chunksFuel (st : Nat × Nat × Nat × Nat) (bytes : List Nat) :
    Nat → Nat × Nat × Nat × Nat
  | 0 => st
  | fuel + 1 =>
    if bytes.isEmpty then st
    else md5chunksFuel (md5chunk st (bytes.take 64)) (bytes.drop 64) fuel

/-- Fold the MD5 compression over consecutive 64-byte chunks. -/
def md5chunks (st : Nat × Nat × Nat × Nat) (bytes : List Nat) :
    Nat × Nat × Nat × Nat :=
  md5chunksFuel st bytes bytes.length

/-- Serialize a 32-bit word as four little-endian bytes. -/
def le4 (n : Nat) : List Nat :=
  [n % 256, (n >>> 8) % 256, (n >>> 16) % 256, (n >>> 24) % 256]

/-- The 16-byte MD5 digest of a byte list. -/
def md5digest (msg : List Nat) : List Nat :=
  let st := md5chunks (0x67452301, 0xefcdab89, 0x98badcfe, 0x10325476) (md5pad msg)
  le4 st.1 ++ le4 st.2.1 ++ le4 st.2.2.1 ++ le4 st.2.2.2

/-- A lowercase hexadecimal digit. -/
def hexDigit (n : Nat) : Char :=
  if n < 10 then Char.ofNat (48 + n) else Char.ofNat (87 + n)

/-- Two lowercase hex digits of a byte. -/
def byteHex (b : Nat) : List Char := [hexDigit (b / 16), hexDigit (b % 16)]

/-- The 32-character lowercase hex MD5 digest (Python `hexdigest()`). -/
def md5hex (msg : List Nat) : String :=
  String.mk ((md5digest msg).map byteHex).flatten

/-- UTF-8 encoding of one character (Python `str.encode()` acts per character). -/
def utf8Char (c : Char) : List Nat :=
  let n := c.toNat
  if n < 0x80 then [n]
  else if n < 0x800 then
    [0xc0 ||| (n >>> 6), 0x80 ||| (n &&& 0x3f)]
  else if n < 0x10000 then
    [0xe0 ||| (n >>> 12), 0x80 ||| ((n >>> 6) &&& 0x3f), 0x80 ||| (n &&& 0x3f)]
  else
    [0xf0 ||| (n >>> 18), 0x80 ||| ((n >>> 12) &&& 0x3f),
     0x80 ||| ((n >>> 6) &&& 0x3f), 0x80 ||| (n &&& 0x3f)]

/-- UTF-8 bytes of a string (Python `text.encode()`). -/
def strBytes (s : String) : List Nat := (s.data.map utf8Char).flatten

/-- The content fingerprint of `scraper.py`:
`hashlib.md5(text.encode()).hexdigest()[:12]`. -/
def contentHash (text : String) : String :=
  String.mk ((md5hex (strBytes text)).data.take 12)

/-! ## Regex scanners

Explicit embeddings of the `re.search` patterns of `scraper.py`. Each
`search*` function scans positions left to right and reports the leftmost
match, as `re.search` does. -/

/-- Python `\s` on the ASCII range (space, tab, newline, return, vtab, formfeed). -/
def isPySpace (c : Char) : Bool :=
  c = ' ' || c = '\t' || c = '\n' || c = '\x0d' || c = '\x0b' || c = '\x0c'

/-- An ASCII decimal digit (Python `\d` on ASCII text). -/
def isAsciiDigit (c : Char) : Bool := 48 ≤ c.toNat && c.toNat ≤ 57

/-- Match `Issue\s+(\d+)` anchored at the current position; the captured
group is the maximal digit run. -/
def matchIssueAt : List Char → Option String
  | 'I' :: 's' :: 's' :: 'u' :: 'e' :: rest =>
    let ws := rest.span isPySpace
    if ws.1.isEmpty then none
    else
      let ds := ws.2.span isAsciiDigit
      if ds.1.isEmpty then none else some (String.mk ds.1)
  | _ => none

/-- Scan for the leftmost `Issue\s+(\d+)` match. -/
def searchIssueAux : List Char → Option String
  | [] => none
  | c :: rest =>
    match matchIssueAt (c :: rest) with
    | some r => some r
    | none => searchIssueAux rest

/-- `re.search(r"Issue\s+(\d+)", s)`, returning group 1. -/
def searchIssue (s : String) : Option String := searchIssueAux s.data

/-- The month-name alternation of the ISED date patterns, in source order. -/
def monthNames : List String :=
  ["January", "February", "March", "April", "May", "June", "July",
   "August", "September", "October", "November", "December"]

/-- Strip a literal character sequence, returning the remainder on success. -/
def dropLit : List Char → List Char → Option (List Char)
  | [], rest => some rest
  | _ :: _, [] => none
  | p :: ps, c :: cs => if c = p then dropLit ps cs else none

/-- Match one of the month names at the current position (alternation tried
in source order), returning the matched name and the remainder. -/
def matchMonthAt (cs : List Char) : Option (List Char × List Char) :=
  monthNames.foldr
    (fun m acc =>
      match dropLit m.data cs with
      | some rest => some (m.data, rest)
      | none => acc)
    none

/-- Match `\s+\d{4}` at the current position, returning the consumed
characters (maximal whitespace run then exactly four digits; trailing digits
are permitted, as in the unanchored regex). -/
def dateTail (cs : List Char) : Option (List Char) :=
  let ws := cs.span isPySpace
  if ws.1.isEmpty then none
  else
    match ws.2 with
    | d1 :: d2 :: d3 :: d4 :: _ =>
      if isAsciiDigit d1 && isAsciiDigit d2 && isAsciiDigit d3 && isAsciiDigit d4
      then some (ws.1 ++ [d1, d2, d3, d4]) else none
    | _ => none

/-- Match `,?\s+\d{4}` at the current position (the optional comma is taken
greedily, retrying without it on failure, as the regex engine does). -/
def finishDate1 (cs : List Char) : Option (List Char) :=
  match cs with
  | ',' :: r =>
    (match dateTail r with
     | some t => some (',' :: t)
     | none => dateTail cs)
  | _ => dateTail cs

/-- Match the first ISED date shape `(Month\s+\d{1,2},?\s+\d{4})` at the
current position, returning the matched text; `\d{1,2}` is greedy with
backtracking (two digits tried before one). -/
def matchDate1At (cs : List Char) : Option (List Char) :=
  match matchMonthAt cs with
  | none => none
  | some mon =>
    let ws := mon.2.span isPySpace
    if ws.1.isEmpty then none
    else
      let ds := ws.2.span isAsciiDigit
      let tryTake := fun (k : Nat) =>
        if ds.1.length < k then none
        else
          match finishDate1 (ds.1.drop k ++ ds.2) with
          | some t => some (mon.1 ++ ws.1 ++ ds.1.take k ++ t)
          | none => none
      match tryTake 2 with
      | some r => some r
      | none => tryTake 1

/-- Match the second ISED date shape `(Month\s+\d{4})` at the current
position, returning the matched text. -/
def matchDate2At (cs : List Char) : Option (List Char) :=
  match matchMonthAt cs with
  | none => none
  | some mon =>
    match dateTail mon.2 with
    | some t => some (mon.1 ++ t)
    | none => none

/-- Scan for the leftmost match of the first date shape. -/
def searchDate1Aux : List Char → Option (List Char)
  | [] => none
  | c :: rest =>
    match matchDate1At (c :: rest) with
    | some r => some r
    | none => searchDate1Aux rest

/-- `re.search` for `(Month\s+\d{1,2},?\s+\d{4})`, returning group 1. -/
def searchDate1 (s : String) : Option String :=
  (searchDate1Aux s.data).map String.mk

/-- Scan for the leftmost match of the second date shape. -/
def searchDate2Aux : List Char → Option (List Char)
  | [] => none
  | c :: rest =>
    match matchDate2At (c :: rest) with
    | some r => some r
    | none => searchDate2Aux rest

/-- `re.search` for `(Month\s+\d{4})`, returning group 1. -/
def searchDate2 (s : String) : Option String :=
  (searchDate2Aux s.data).map String.mk

/-- Numeric value of a two-ASCII-digit group (Python `int(group)`). -/
def digits2 (a b : Char) : Nat := (a.toNat - 48) * 10 + (b.toNat - 48)

/-- Match `(\d{2})\.(\d{2})\.(\d{2})_60` at the current position, returning
the integer (major, minor, patch) triple. -/
def matchV60At : List Char → Option (Nat × Nat × Nat)
  | a :: b :: '.' :: c :: d :: '.' :: e :: f :: '_' :: '6' :: '0' :: _ =>
    if isAsciiDigit a && isAsciiDigit b && isAsciiDigit c && isAsciiDigit d &&
       isAsciiDigit e && isAsciiDigit f
    then some (digits2 a b, digits2 c d, digits2 e f)
    else none
  | _ => none

/-- Scan for the leftmost `(\d{2})\.(\d{2})\.(\d{2})_60` match. -/
def searchV60Aux : List Char → Option (Nat × Nat × Nat)
  | [] => none
  | c :: rest =>
    match matchV60At (c :: rest) with
    | some r => some r
    | none => searchV60Aux rest

/-- `re.search(r"(\d{2})\.(\d{2})\.(\d{2})_60", s)` as an integer triple. -/
def searchV60 (s : String) : Option (Nat × Nat × Nat) := searchV60Aux s.data

/-- Whether the character list contains the literal `.pdf`
(Python `".pdf" in href.lower()`, applied to already-lowercased text). -/
def containsPdf : List Char → Bool
  | '.' :: 'p' :: 'd' :: 'f' :: _ => true
  | _ :: rest => containsPdf rest
  | [] => false

/-- Match `v(\d{2})(\d{2})(\d{2})` at the current position. -/
def matchPdfVAt : List Char → Option (Nat × Nat × Nat)
  | 'v' :: a :: b :: c :: d :: e :: f :: _ =>
    if isAsciiDigit a && isAsciiDigit b && isAsciiDigit c && isAsciiDigit d &&
       isAsciiDigit e && isAsciiDigit f
    then some (digits2 a b, digits2 c d, digits2 e f)
    else none
  | _ => none

/-- Scan for the leftmost `v(\d{2})(\d{2})(\d{2})` match. -/
def searchPdfVAux : List Char → Option (Nat × Nat × Nat)
  | [] => none
  | c :: rest =>
    match matchPdfVAt (c :: rest) with
    | some r => some r
    | none => searchPdfVAux rest

/-- `re.search(r"v(\d{2})(\d{2})(\d{2})", s)` as an integer triple. -/
def searchPdfV (s : String) : Option (Nat × Nat × Nat) := searchPdfVAux s.data

/-- Match the free-text version pattern `[Vv]ersion\s*([\d.]+)|V([\d.]+)` at
the current position, returning the digit-and-dot group. -/
def matchVersionTextAt (cs : List Char) : Option (List Char) :=
  let branch1 :=
    match cs with
    | v :: rest =>
      if v = 'V' || v = 'v' then
        match dropLit "ersion".data rest with
        | some r1 =>
          let ws := r1.span isPySpace
          let ds := ws.2.span (fun c => isAsciiDigit c || c = '.')
          if ds.1.isEmpty then none else some ds.1
        | none => none
      else none
    | [] => none
  match branch1 with
  | some r => some r
  | none =>
    match cs with
    | 'V' :: rest =>
      let ds := rest.span (fun c => isAsciiDigit c || c = '.')
      if ds.1.isEmpty then none else some ds.1
    | _ => none

/-- Scan for the leftmost free-text version match. -/
def searchVersionTextAux : List Char → Option (List Char)
  | [] => none
  | c :: rest =>
    match matchVersionTextAt (c :: rest) with
    | some r => some r
    | none => searchVersionTextAux rest

/-- `re.search(r"[Vv]ersion\s*([\d.]+)|V([\d.]+)", s)`, returning whichever
group matched (`group(1) or group(2)`). -/
def searchVersionText (s : String) : Option String :=
  (searchVersionTextAux s.data).map String.mk

/-! ## Documents and extraction strategies -/

/-- One entry of the eCFR `content_versions` list; `date` is read with
`latest.get("date", "")`, so a missing key is the empty string. -/
structure EcfrVersionEntry where
  date : String

/-- The `meta` object of the eCFR versions payload; `none` means the key is
absent. -/
structure EcfrMeta where
  latest_issue_date : Option String
  latest_amendment_date : Option String

/-- The parsed eCFR versions payload, as `fetch_ecfr_data` reads it:
`content_versions` and `meta` are `none` when the key is absent (or the
payload is not an object), and `rawText` is `response.text`. -/
structure EcfrDoc where
  content_versions : Option (List EcfrVersionEntry)
  meta : Option EcfrMeta
  rawText : String

/-- An ISED detail page as `fetch_ised_data` reads it: `pageText` is
`soup.get_text(separator=" ", strip=True)` and `rawText` is `response.text`. -/
structure IsedDoc where
  pageText : String
  rawText : String

/-- An ETSI directory page as `fetch_etsi_data` reads it: `links` is the
(href, link text) list of `soup.find_all("a", href=True)` (hrefs already
lowercased where the source lowercases them is NOT assumed; the source
lowercases explicitly in the PDF fallback), `pageText` is `soup.get_text()`,
and `rawText` is `response.text`. -/
structure EtsiDoc where
  links : List (String × String)
  pageText : String
  rawText : String

/-- The outcome of one HTTP attempt inside a fetcher's retry loop: the
document, a `requests.RequestException` (retried), or any other exception
(breaks the loop). -/
inductive Attempt (δ : Type) where
  | ok (d : δ)
  | requestError
  | otherError

/-- `MAX_RETRIES` of `scraper.py`. -/
def MAX_RETRIES : Nat := 3

/-- The shared retry loop shape: successive attempts are consumed until one
yields a document (extraction then returns), a non-request exception breaks
the loop, or the attempts run out (`return None, None`). -/
def attemptLoop {δ : Type} (extract : δ → String × String) :
    List (Attempt δ) → Option (String × String)
  | [] => none
  | Attempt.ok d :: _ => some (extract d)
  | Attempt.requestError :: rest => attemptLoop extract rest
  | Attempt.otherError :: _ => none

/-- The extraction body of `fetch_ecfr_data` (lines 362-385 of scraper.py):
first entry of `content_versions` when its date is truthy, else the `meta`
issue/amendment dates, else the content fingerprint. -/
def ecfr_extract (now : String) (d : EcfrDoc) : String × String :=
  let fromVersions : Option String :=
    match d.content_versions with
    | some (latest :: _) => if latest.date ≠ "" then some latest.date else none
    | _ => none
  match fromVersions with
  | some v => (v, now)
  | none =>
    match d.meta with
    | some m =>
      match m.latest_issue_date with
      | some v => (v, now)
      | none =>
        match m.latest_amendment_date with
        | some v => (v, now)
        | none => (contentHash d.rawText, now)
    | none => (contentHash d.rawText, now)

/-- `fetch_ecfr_data`: guard on a missing title, then the retry loop around
the extraction, `MAX_RETRIES` attempts. -/
def fetch_ecfr_data (title : String) (attempts : Nat → Attempt EcfrDoc)
    (now : String) : Option (String × String) :=
  if title = "" then none
  else attemptLoop (ecfr_extract now) ((List.range MAX_RETRIES).map attempts)

/-- The extraction body of `fetch_ised_data` (lines 426-465 of scraper.py):
issue number and date from the rendered text give the composite token; a raw
text issue number plus a rendered-text date also gives the composite token;
otherwise the content fingerprint. -/
def ised_extract (now : String) (d : IsedDoc) : String × String :=
  let issueM := searchIssue d.pageText
  let dateM :=
    match searchDate1 d.pageText with
    | some x => some x
    | none => searchDate2 d.pageText
  match issueM, dateM with
  | some n, some dt => ("Issue " ++ n ++ " (" ++ dt ++ ")", now)
  | _, _ =>
    match issueM with
    | none =>
      (match searchIssue d.rawText, dateM with
       | some n, some dt => ("Issue " ++ n ++ " (" ++ dt ++ ")", now)
       | _, _ => (contentHash d.rawText, now))
    | some _ => (contentHash d.rawText, now)

/-- `fetch_ised_data`: guard on a missing source URL, then the retry loop
around the extraction. -/
def fetch_ised_data (source_url : String) (attempts : Nat → Attempt IsedDoc)
    (now : String) : Option (String × String) :=
  if source_url = "" then none
  else attemptLoop (ised_extract now) ((List.range MAX_RETRIES).map attempts)

/-- The `published_versions` collection of `fetch_etsi_data` (lines 514-532):
for each directory link, the first `MM.mm.pp_60` match of the href, else of
the link text, appended in link order. -/
def published_versions (links : List (String × String)) :
    List (Nat × Nat × Nat) :=
  links.foldl
    (fun acc l =>
      match searchV60 l.1 with
      | some t => acc ++ [t]
      | none =>
        match searchV60 l.2 with
        | some t => acc ++ [t]
        | none => acc)
    []

/-- Descending tuple comparison used to model `published_versions.sort(reverse=True)`:
`tripGe x y` says `y ≤ x` in lexicographic order on (major, minor, patch). -/
def tripGe (x y : Nat × Nat × Nat) : Prop :=
  y.1 < x.1 ∨ (y.1 = x.1 ∧ (y.2.1 < x.2.1 ∨ (y.2.1 = x.2.1 ∧ y.2.2 ≤ x.2.2)))

instance : DecidableRel tripGe := fun x y => by
  unfold tripGe; infer_instance

instance : IsTotal (Nat × Nat × Nat) tripGe :=
  ⟨fun x y => by unfold tripGe; omega⟩

instance : IsTrans (Nat × Nat × Nat) tripGe :=
  ⟨fun x y z hxy hyz => by unfold tripGe at *; omega⟩

/-- `f"V{major}.{minor}.{patch}"` on the integer triple. -/
def formatV (t : Nat × Nat × Nat) : String :=
  "V" ++ toString t.1 ++ "." ++ toString t.2.1 ++ "." ++ toString t.2.2

/-- The PDF-filename fallback of `fetch_etsi_data` (lines 544-554): the first
link whose lowercased href contains `.pdf` and matches `v(\d{2})(\d{2})(\d{2})`. -/
def pdf_version (links : List (String × String)) : Option (Nat × Nat × Nat) :=
  match links with
  | [] => none
  | l :: rest =>
    if containsPdf l.1.toLower.data then
      match searchPdfV l.1.toLower with
      | some t => some t
      | none => pdf_version rest
    else pdf_version rest

/-- The extraction body of `fetch_etsi_data` (lines 508-567): the highest
`_60`-suffixed directory version, else the PDF-filename version, else the
free-text version, else the content fingerprint. -/
def etsi_extract (now : String) (d : EtsiDoc) : String × String :=
  let pubs := published_versions d.links
  if pubs.isEmpty then
    match pdf_version d.links with
    | some t => (formatV t, now)
    | none =>
      match searchVersionText d.pageText with
      | some v => ("V" ++ v, now)
      | none => (contentHash d.rawText, now)
  else
    (formatV ((List.insertionSort tripGe pubs).headD (0, 0, 0)), now)

/-- `fetch_etsi_data`: guard on a missing source URL, then the retry loop
around the extraction. -/
def fetch_etsi_data (source_url : String) (attempts : Nat → Attempt EtsiDoc)
    (now : String) : Option (String × String) :=
  if source_url = "" then none
  else attemptLoop (etsi_extract now) ((List.range MAX_RETRIES).map attempts)

/-! ## Data model and monitor engine -/

/-- A monitored standard record, as the engine reads and writes it
(`standard.get(...)` with `""` defaults for the locator fields and `None`
default for `current_version` / `last_checked`). -/
structure Standard where
  id : String
  name : String
  type_ : String
  title : String
  source_url : String
  rss_id : String
  current_version : Option String
  last_checked : Option String
deriving DecidableEq, Repr

/-- A detected transition, as appended to `update_history` by `run_monitor`. -/
structure ChangeEvent where
  id : String
  name : String
  type_ : String
  old_version : String
  new_version : String
  detected_at : String
deriving DecidableEq, Repr

/-- The run metadata block, overwritten wholesale at the end of each run. -/
structure RunMetadata where
  last_run_time : String
  standards_checked : Nat
  status : String
deriving DecidableEq, Repr

/-- The persisted history snapshot: metadata, the category-keyed standards
map (an ordered association list, as iterated by `standards.items()`), and
the bounded change log. -/
structure HistorySnapshot where
  metadata : RunMetadata
  standards : List (String × List Standard)
  update_history : List ChangeEvent
deriving DecidableEq, Repr

/-- The per-run document capability: the attempt outcomes each fetcher would
see, per retry index. -/
structure DocSet where
  ecfrAttempts : Nat → Attempt EcfrDoc
  isedAttempts : Nat → Attempt IsedDoc
  etsiAttempts : Nat → Attempt EtsiDoc

/-- `check_standard` (lines 620-643): dispatch on the standard's type string;
any type outside the three structured families yields `None, None`. -/
def check_standard (std : Standard) (docs : DocSet) (now : String) :
    Option (String × String) :=
  if std.type_ = "FCC_CFR" then fetch_ecfr_data std.title docs.ecfrAttempts now
  else if std.type_ = "ISED" then fetch_ised_data std.source_url docs.isedAttempts now
  else if std.type_ = "ETSI" then fetch_etsi_data std.source_url docs.etsiAttempts now
  else none

/-- The per-standard body of the `run_monitor` loop (lines 670-708), on the
check result `r`: returns the written-back standard, the ChangeEvent queued
for this standard (if any), and the increments to `checked_count` and
`error_count`. A falsy result (`None` or the empty string) takes the error
branch; a truthy old version different from the new token takes the update
branch; a falsy old version takes the first-record branch. -/
def processStandard (r : Option (String × String)) (s : Standard) :
    Standard × Option ChangeEvent × Nat × Nat :=
  match r with
  | some (new_version, check_date) =>
    if new_version ≠ "" then
      let s1 := { s with last_checked := some check_date }
      match s.current_version with
      | some old =>
        if old ≠ "" ∧ old ≠ new_version then
          ({ s1 with current_version := some new_version },
           some { id := s.id, name := s.name, type_ := s.type_,
                  old_version := old, new_version := new_version,
                  detected_at := check_date },
           1, 0)
        else if old = "" then
          ({ s1 with current_version := some new_version }, none, 1, 0)
        else
          (s1, none, 1, 0)
      | none => ({ s1 with current_version := some new_version }, none, 1, 0)
    else (s, none, 0, 1)
  | none => (s, none, 0, 1)

/-- The inner `for standard in standards_list` loop: standards processed in
order, updates appended in order, counters summed. -/
def processStandards (oracle : Standard → Option (String × String)) :
    List Standard → List Standard × List ChangeEvent × Nat × Nat
  | [] => ([], [], 0, 0)
  | s :: rest =>
    let p := processStandard (oracle s) s
    let q := processStandards oracle rest
    (p.1 :: q.1, p.2.1.toList ++ q.2.1, p.2.2.1 + q.2.2.1, p.2.2.2 + q.2.2.2)

/-- The outer `for category, standards_list in standards.items()` loop. -/
def processCategories (oracle : Standard → Option (String × String)) :
    List (String × List Standard) →
      List (String × List Standard) × List ChangeEvent × Nat × Nat
  | [] => ([], [], 0, 0)
  | c :: rest =>
    let p := processStandards oracle c.2
    let q := processCategories oracle rest
    ((c.1, p.1) :: q.1, p.2.1 ++ q.2.1, p.2.2.1 + q.2.2.1, p.2.2.2 + q.2.2.2)

/-- `run_monitor` (lines 645-735), parameterized by the per-standard check
outcome `oracle` (in the source, `check_standard` against the remote
document set) and the run timestamp `now`. Returns the persisted snapshot
and the `(checked_count, updates, status)` result triple. Updates are
inserted at index 0 of `update_history` in order and the list is then
truncated to 100 entries; when there are no updates the list is untouched. -/
def run_monitor (oracle : Standard → Option (String × String)) (now : String)
    (history : HistorySnapshot) :
    HistorySnapshot × Nat × List ChangeEvent × String :=
  let pc := processCategories oracle history.standards
  let updates := pc.2.1
  let checked_count := pc.2.2.1
  let error_count := pc.2.2.2
  let status := if error_count = 0 then "success" else "partial"
  let update_history1 :=
    if updates.isEmpty then history.update_history
    else (updates.foldl (fun acc u => u :: acc) history.update_history).take 100
  ({ metadata := { last_run_time := now, standards_checked := checked_count,
                   status := status },
     standards := pc.1,
     update_history := update_history1 },
   checked_count, updates, status)

/-- The run's error count (the `error_count` accumulated by the loop). -/
def run_errors (oracle : Standard → Option (String × String))
    (history : HistorySnapshot) : Nat :=
  (processCategories oracle history.standards).2.2.2

/-- `HEARTBEAT_DAY` of `scraper.py` (0 = Monday). -/
def HEARTBEAT_DAY : Nat := 0

/-- `is_heartbeat_day`, on the local (UTC+8) weekday of the run. -/
def is_heartbeat_day (weekday : Nat) : Bool := weekday == HEARTBEAT_DAY

/-- Which notifications `main` dispatches this run. -/
structure Notifications where
  sent_updates : Bool
  sent_heartbeat : Bool
deriving DecidableEq, Repr

/-- The notification decisions of `main` (lines 744-757): the updates
notification goes out when the run produced updates; the heartbeat goes out
when the run day is the heartbeat day and there were no updates. -/
def main_notifications (updates : List ChangeEvent) (weekday : Nat) :
    Notifications :=
  { sent_updates := !updates.isEmpty,
    sent_heartbeat := is_heartbeat_day weekday && updates.isEmpty }

/-- One `main` invocation: run the monitor, then decide notifications. -/
def main_run (oracle : Standard → Option (String × String)) (now : String)
    (weekday : Nat) (history : HistorySnapshot) :
    HistorySnapshot × Notifications :=
  let r := run_monitor oracle now history
  (r.1, main_notifications r.2.2.1 weekday)

/-- Snapshots reachable by repeated monitor runs from an initial snapshot
whose change log holds at most 100 entries; each run may see a different
document set (oracle) and timestamp. -/
inductive ReachableSnapshot : HistorySnapshot → Prop where
  | init (h : HistorySnapshot) (hlen : h.update_history.length ≤ 100) :
      ReachableSnapshot h
  | step (h : HistorySnapshot) (oracle : Standard → Option (String × String))
      (now : String) (hr : ReachableSnapshot h) :
      ReachableSnapshot (run_monitor oracle now h).1

/-- Overwrite only the engine-owned mutable fields of a standard. -/
def setDynamic (s : Standard) (cv lc : Option String) : Standard :=
  { s with current_version := cv, last_checked := lc }

/-! ## Concrete inputs used by witnesses and counterexamples -/

/-- An ISED page whose rendered text carries an issue number but no date. -/
def isedDocNoDate : IsedDoc := { pageText := "Issue 4", rawText := "Issue 4" }

/-- The ETSI directory of the spec's fallback-ordering example: two published
versions and one vote-status version. -/
def etsiDoc0 : EtsiDoc :=
  { links := [("02.02.02_60", ""), ("02.03.01_60", ""), ("02.04.00_40", "")],
    pageText := "", rawText := "" }

/-- A document capability where every fetch succeeds on the first attempt. -/
def docs0 : DocSet :=
  { ecfrAttempts := fun _ =>
      Attempt.ok { content_versions := some [{ date := "2025-01-01" }],
                   meta := none, rawText := "ecfr page" },
    isedAttempts := fun _ =>
      Attempt.ok { pageText := "Issue 4 July 24, 2025", rawText := "ised page" },
    etsiAttempts := fun _ => Attempt.ok etsiDoc0 }

/-- A standard of an unknown source type (outside the three structured
families), with a reachable source URL. -/
def stdUnclassified : Standard :=
  { id := "ANSI-C63-4", name := "ANSI C63.4", type_ := "ANSI", title := "",
    source_url := "https://webstore.ansi.example/c63-4", rss_id := "",
    current_version := some "abcdef012345", last_checked := none }

/-- A never-checked ISED standard (`current_version` null). -/
def stdISED0 : Standard :=
  { id := "ISED-RSS-247", name := "RSS-247", type_ := "ISED", title := "",
    source_url := "https://ised.example/rss-247", rss_id := "rss-247",
    current_version := none, last_checked := none }

/-- A standard whose stored version is the empty string (non-null). -/
def stdEmptyVersion : Standard :=
  { stdISED0 with id := "ISED-RSS-102", name := "RSS-102",
                  current_version := some "" }

/-- An FCC standard with a stored baseline version. -/
def stdFCC0 : Standard :=
  { id := "FCC-47-15", name := "CFR Title 47 Part 15", type_ := "FCC_CFR",
    title := "47", source_url := "", rss_id := "",
    current_version := some "2024-10-01", last_checked := none }

/-- A one-category snapshot holding the FCC standard, empty change log. -/
def snapFCC : HistorySnapshot :=
  { metadata := { last_run_time := "", standards_checked := 0, status := "" },
    standards := [("FCC", [stdFCC0])],
    update_history := [] }

/-- A one-category snapshot holding the empty-string-version standard. -/
def snapEmptyCV : HistorySnapshot :=
  { metadata := { last_run_time := "", standards_checked := 0, status := "" },
    standards := [("ISED", [stdEmptyVersion])],
    update_history := [] }

/-- A check oracle that extracts a fixed new token for every standard. -/
def oracleNewDate : Standard → Option (String × String) :=
  fun _ => some ("2025-09-30", "2025-10-01 08:00:00")

/-- A check oracle that extracts a fixed ISED-style token for every standard. -/
def oracleNewIssue : Standard → Option (String × String) :=
  fun _ => some ("Issue 5 (May 2025)", "2025-10-01 08:00:00")

/-- A check oracle reading only static standard fields (token derived from
the source URL), failing on standards with no URL. -/
def oracleByUrl : Standard → Option (String × String) :=
  fun s => if s.source_url = "" then none else some (s.source_url, "T")

/-! ## Helper lemmas -/

theorem tripGe_refl (x : Nat × Nat × Nat) : tripGe x x := by
  unfold tripGe; omega

theorem foldl_insert_head (l init : List ChangeEvent) :
    l.foldl (fun acc u => u :: acc) init = l.reverse ++ init := by
  induction l generalizing init with
  | nil => rfl
  | cons a l ih => simp [List.foldl_cons, ih]

theorem mem_events_processStandards
    (oracle : Standard → Option (String × String)) {ss : List Standard}
    {s : Standard} (hs : s ∈ ss) {e : ChangeEvent}
    (he : (processStandard (oracle s) s).2.1 = some e) :
    e ∈ (processStandards oracle ss).2.1 := by
  induction ss with
  | nil => cases hs
  | cons a rest ih =>
    rcases List.mem_cons.mp hs with h | h
    · subst h
      simp [processStandards, he]
    · simp [processStandards]
      exact Or.inr (ih h)

theorem mem_events_processCategories
    (oracle : Standard → Option (String × String))
    {cats : List (String × List Standard)} {cat : String} {ss : List Standard}
    (hc : (cat, ss) ∈ cats) {s : Standard} (hs : s ∈ ss) {e : ChangeEvent}
    (he : (processStandard (oracle s) s).2.1 = some e) :
    e ∈ (processCategories oracle cats).2.1 := by
  induction cats with
  | nil => cases hc
  | cons c rest ih =>
    rcases List.mem_cons.mp hc with h | h
    · subst h
      simp only [processCategories, List.mem_append]
      exact Or.inl (mem_events_processStandards oracle hs he)
    · simp only [processCategories, List.mem_append]
      exact Or.inr (ih h)

theorem run_monitor_no_updates
    (oracle : Standard → Option (String × String)) (now : String)
    (h : HistorySnapshot) (hu : (run_monitor oracle now h).2.2.1 = []) :
    (run_monitor oracle now h).1.update_history = h.update_history := by
  have hpc : (processCategories oracle h.standards).2.1 = [] := hu
  simp [run_monitor, hpc]

/-! ## Claims -/

/-- Claim C5: for every standard with null `current_version`, a successful
check (truthy extracted token) stores the token as baseline and emits no
ChangeEvent. -/
theorem claim_C5 (s : Standard) (v d : String)
    (hcv : s.current_version = none) (hv : v ≠ "") :
    (processStandard (some (v, d)) s).1.current_version = some v ∧
    (processStandard (some (v, d)) s).2.1 = none := by
  simp [processStandard, hcv, hv]

theorem claim_C5_witness :
    (processStandard (some ("Issue 4 (July 24, 2025)", "2025-07-25 09:00:00"))
        stdISED0).1.current_version = some "Issue 4 (July 24, 2025)" ∧
    (processStandard (some ("Issue 4 (July 24, 2025)", "2025-07-25 09:00:00"))
        stdISED0).2.1 = none :=
  claim_C5 stdISED0 "Issue 4 (July 24, 2025)" "2025-07-25 09:00:00" rfl
    (by decide)

/-- Claim C10: a standard whose stored `current_version` is the empty string
(non-null) is treated exactly like a never-checked one on a successful
check: the token is stored as baseline and no ChangeEvent is emitted,
because the first-record branch tests truthiness. -/
theorem claim_C10 (s : Standard) (v d : String)
    (hcv : s.current_version = some "") (hv : v ≠ "") :
    (processStandard (some (v, d)) s).1.current_version = some v ∧
    (processStandard (some (v, d)) s).2.1 = none := by
  simp [processStandard, hcv, hv]

theorem claim_C10_witness :
    (processStandard (some ("Issue 5 (May 2025)", "2025-10-01 08:00:00"))
        stdEmptyVersion).1.current_version = some "Issue 5 (May 2025)" ∧
    (processStandard (some ("Issue 5 (May 2025)", "2025-10-01 08:00:00"))
        stdEmptyVersion).2.1 = none :=
  claim_C10 stdEmptyVersion "Issue 5 (May 2025)" "2025-10-01 08:00:00" rfl
    (by decide)

/-- Claim C2 counterexample: a standard of unknown type (outside the three
structured families) yields no version token at all — `check_standard`
returns `None, None` without fetching — rather than the content fingerprint
of the fetched document, even when every fetch would succeed. -/
theorem claim_C2_counterexample :
    stdUnclassified.type_ = "ANSI" ∧
    check_standard stdUnclassified docs0 "T" = none := by decide

/-- Claim C2 amended: for every standard whose type is not one of the three
structured families, a check produces no version token (the branch returns
`None, None`), and the standard is counted as an error, leaving it
unchanged. -/
theorem claim_C2_amended (std : Standard) (docs : DocSet) (now : String)
    (h1 : std.type_ ≠ "FCC_CFR") (h2 : std.type_ ≠ "ISED")
    (h3 : std.type_ ≠ "ETSI") :
    check_standard std docs now = none ∧
    processStandard (check_standard std docs now) std = (std, none, 0, 1) := by
  have hc : check_standard std docs now = none := by
    simp [check_standard, h1, h2, h3]
  exact ⟨hc, by rw [hc]; rfl⟩

theorem claim_C2_amended_witness :
    check_standard stdUnclassified docs0 "T" = none ∧
    processStandard (check_standard stdUnclassified docs0 "T") stdUnclassified =
      (stdUnclassified, none, 0, 1) :=
  claim_C2_amended stdUnclassified docs0 "T" (by decide) (by decide) (by decide)

/-- Claim C7: in every run, the heartbeat is dispatched exactly when the
run's local weekday equals the configured heartbeat day and the run produced
no ChangeEvents; with at least one ChangeEvent no heartbeat is sent. -/
theorem claim_C7 (oracle : Standard → Option (String × String)) (now : String)
    (weekday : Nat) (h : HistorySnapshot) :
    ((main_run oracle now weekday h).2.sent_heartbeat = true ↔
      weekday = HEARTBEAT_DAY ∧ (run_monitor oracle now h).2.2.1 = []) ∧
    ((run_monitor oracle now h).2.2.1 ≠ [] →
      (main_run oracle now weekday h).2.sent_heartbeat = false) := by
  constructor
  · simp [main_run, main_notifications, is_heartbeat_day, List.isEmpty_iff]
  · intro hne
    simp [main_run, main_notifications, is_heartbeat_day, List.isEmpty_iff, hne]

theorem claim_C7_witness :
    ((main_run oracleByUrl "T" 0 snapFCC).2.sent_heartbeat = true ↔
      0 = HEARTBEAT_DAY ∧ (run_monitor oracleByUrl "T" snapFCC).2.2.1 = []) ∧
    ((run_monitor oracleByUrl "T" snapFCC).2.2.1 ≠ [] →
      (main_run oracleByUrl "T" 0 snapFCC).2.sent_heartbeat = false) :=
  claim_C7 oracleByUrl "T" 0 snapFCC

/-- Claim C1 counterexample: a fetched ISED document whose rendered text
contains the token `Issue 4` but no date in either accepted shape does NOT
yield the partial token `Issue 4`; the extraction falls through to the
content fingerprint of the raw document. -/
theorem claim_C1_counterexample :
    searchIssue isedDocNoDate.pageText = some "4" ∧
    searchDate1 isedDocNoDate.pageText = none ∧
    searchDate2 isedDocNoDate.pageText = none ∧
    (ised_extract "T" isedDocNoDate).1 ≠ "Issue 4" ∧
    ised_extract "T" isedDocNoDate = (contentHash isedDocNoDate.rawText, "T") := by
  decide

/-- Claim C1 amended: for every fetched ISED document whose rendered text
contains an `Issue N` token but no date token in either accepted shape, the
extracted version token is the content fingerprint of the raw document (the
partial token `Issue N` is not emitted). -/
theorem claim_C1_amended (d : IsedDoc) (now n : String)
    (hi : searchIssue d.pageText = some n)
    (h1 : searchDate1 d.pageText = none)
    (h2 : searchDate2 d.pageText = none) :
    ised_extract now d = (contentHash d.rawText, now) := by
  simp [ised_extract, hi, h1, h2]

theorem claim_C1_amended_witness :
    ised_extract "T" isedDocNoDate = (contentHash isedDocNoDate.rawText, "T") :=
  claim_C1_amended isedDocNoDate "T" "4" (by decide) (by decide) (by decide)

/-- Claim C8: when every one of the three fetch attempts fails with a
request error, the eCFR fetch yields no token, the standard's check takes
the error branch — the standard (hence `current_version` and `last_checked`)
is returned unchanged, no ChangeEvent is emitted, and the error count is
incremented by exactly one — and every run's status is `success` exactly
when its error count is zero and `partial` otherwise. -/
theorem claim_C8 (attempts : Nat → Attempt EcfrDoc) (title now : String)
    (h0 : attempts 0 = Attempt.requestError)
    (h1 : attempts 1 = Attempt.requestError)
    (h2 : attempts 2 = Attempt.requestError)
    (s : Standard) (oracle : Standard → Option (String × String))
    (now2 : String) (hist : HistorySnapshot) :
    fetch_ecfr_data title attempts now = none ∧
    processStandard (fetch_ecfr_data title attempts now) s = (s, none, 0, 1) ∧
    (run_monitor oracle now2 hist).2.2.2 =
      (if run_errors oracle hist = 0 then "success" else "partial") ∧
    (run_monitor oracle now2 hist).1.metadata.status =
      (if run_errors oracle hist = 0 then "success" else "partial") := by
  have hrange : (List.range MAX_RETRIES).map attempts =
      [Attempt.requestError, Attempt.requestError, Attempt.requestError] := by
    have h3 : List.range MAX_RETRIES = [0, 1, 2] := by decide
    rw [h3]
    simp [h0, h1, h2]
  have hf : fetch_ecfr_data title attempts now = none := by
    unfold fetch_ecfr_data
    split
    · rfl
    · rw [hrange]
      rfl
  refine ⟨hf, by rw [hf]; rfl, rfl, rfl⟩

theorem claim_C8_witness :
    fetch_ecfr_data "47" (fun _ => Attempt.requestError) "T" = none ∧
    processStandard (fetch_ecfr_data "47" (fun _ => Attempt.requestError) "T")
        stdFCC0 = (stdFCC0, none, 0, 1) ∧
    (run_monitor oracleByUrl "T2" snapFCC).2.2.2 =
      (if run_errors oracleByUrl snapFCC = 0 then "success" else "partial") ∧
    (run_monitor oracleByUrl "T2" snapFCC).1.metadata.status =
      (if run_errors oracleByUrl snapFCC = 0 then "success" else "partial") :=
  claim_C8 (fun _ => Attempt.requestError) "47" "T" rfl rfl rfl stdFCC0
    oracleByUrl "T2" snapFCC

/-- Claim C3: when the directory links contain `_60`-suffixed version
tokens, the ETSI extraction returns `V<major>.<minor>.<patch>` of the
numerically highest (major, minor, patch) triple among exactly those
matches (`published_versions` collects only `_60` matches, so no other
status suffix is ever selected). -/
theorem claim_C3 (d : EtsiDoc) (now : String)
    (hne : published_versions d.links ≠ []) :
    ∃ m : Nat × Nat × Nat,
      m ∈ published_versions d.links ∧
      (∀ x ∈ published_versions d.links, tripGe m x) ∧
      etsi_extract now d = (formatV m, now) := by
  have hperm := List.perm_insertionSort tripGe (published_versions d.links)
  have hsorted := List.sorted_insertionSort tripGe (published_versions d.links)
  rcases hs : List.insertionSort tripGe (published_versions d.links) with _ | ⟨m, t⟩
  · rw [hs] at hperm
    exact absurd hperm.symm.eq_nil hne
  · refine ⟨m, ?_, ?_, ?_⟩
    · have : m ∈ List.insertionSort tripGe (published_versions d.links) := by
        rw [hs]; exact List.mem_cons_self m t
      exact (List.mem_insertionSort tripGe).mp this
    · intro x hx
      have hx' : x ∈ List.insertionSort tripGe (published_versions d.links) :=
        (List.mem_insertionSort tripGe).mpr hx
      rw [hs] at hx'
      rcases List.mem_cons.mp hx' with h | h
      · subst h; exact tripGe_refl x
      · rw [hs] at hsorted
        exact List.rel_of_sorted_cons hsorted x h
    · have hie : (published_versions d.links).isEmpty = false := by
        simpa [List.isEmpty_iff] using hne
      simp only [etsi_extract, hie, Bool.false_eq_true, if_false, hs,
        List.headD_cons]

theorem claim_C3_witness :
    published_versions etsiDoc0.links ≠ [] ∧
    (∃ m : Nat × Nat × Nat,
      m ∈ published_versions etsiDoc0.links ∧
      (∀ x ∈ published_versions etsiDoc0.links, tripGe m x) ∧
      etsi_extract "T" etsiDoc0 = (formatV m, "T")) ∧
    etsi_extract "T" etsiDoc0 = ("V2.3.1", "T") :=
  ⟨by decide, claim_C3 etsiDoc0 "T" (by decide), by decide⟩

/-- Claim C6: every snapshot reachable by repeated monitor runs from an
initial snapshot whose change log has at most 100 entries keeps at most 100
entries in `update_history`. -/
theorem claim_C6 (h : HistorySnapshot) (hr : ReachableSnapshot h) :
    h.update_history.length ≤ 100 := by
  induction hr with
  | init h hlen => exact hlen
  | step h oracle now hr ih =>
    simp only [run_monitor]
    split
    · exact ih
    · rw [List.length_take]
      exact Nat.min_le_left _ _

theorem claim_C6_witness :
    ((run_monitor oracleNewDate "T2" (run_monitor oracleByUrl "T" snapFCC).1).1).update_history.length ≤ 100 :=
  claim_C6 _ (ReachableSnapshot.step _ oracleNewDate "T2"
    (ReachableSnapshot.step _ oracleByUrl "T"
      (ReachableSnapshot.init snapFCC (by decide))))

/-- Claim C4 counterexample: the update branch tests truthiness, not
null-ness, of the stored version — a standard whose stored
`current_version` is the non-null empty string, checked successfully with a
different token, produces NO ChangeEvent (the token is stored as a
baseline instead), refuting the claim for that non-null stored value. -/
theorem claim_C4_counterexample :
    stdEmptyVersion.current_version = some "" ∧
    stdEmptyVersion.current_version ≠ none ∧
    oracleNewIssue stdEmptyVersion = some ("Issue 5 (May 2025)", "2025-10-01 08:00:00") ∧
    stdEmptyVersion.current_version ≠ some "Issue 5 (May 2025)" ∧
    (run_monitor oracleNewIssue "T2" snapEmptyCV).2.2.1 = [] ∧
    (run_monitor oracleNewIssue "T2" snapEmptyCV).1.update_history = [] ∧
    (run_monitor oracleNewIssue "T2" snapEmptyCV).1.standards =
      [("ISED", [{ stdEmptyVersion with
                     current_version := some "Issue 5 (May 2025)",
                     last_checked := some "2025-10-01 08:00:00" }])] := by
  decide

/-- Claim C4 amended: for every standard with a non-null AND non-empty
stored `current_version`, when a run's successful check extracts a
different truthy token, the standard's processing emits exactly one
ChangeEvent (recording the old and new tokens), the event enters the run's
update queue, `current_version` is overwritten with the new token, and the
persisted `update_history` is this run's queued events (newest first) in
front of the previous log, truncated to at most 100 entries. -/
theorem claim_C4 (oracle : Standard → Option (String × String)) (now : String)
    (h : HistorySnapshot) (cat : String) (ss : List Standard) (s : Standard)
    (hcat : (cat, ss) ∈ h.standards) (hs : s ∈ ss) (o v dt : String)
    (hcv : s.current_version = some o) (ho : o ≠ "")
    (hor : oracle s = some (v, dt)) (hv : v ≠ "") (hne : o ≠ v) :
    (processStandard (oracle s) s).2.1 =
      some { id := s.id, name := s.name, type_ := s.type_,
             old_version := o, new_version := v, detected_at := dt } ∧
    (processStandard (oracle s) s).1.current_version = some v ∧
    ({ id := s.id, name := s.name, type_ := s.type_, old_version := o,
       new_version := v, detected_at := dt } : ChangeEvent) ∈
      (run_monitor oracle now h).2.2.1 ∧
    (run_monitor oracle now h).1.update_history =
      (((run_monitor oracle now h).2.2.1).reverse ++ h.update_history).take 100 ∧
    (run_monitor oracle now h).1.update_history.length ≤ 100 := by
  have hev : (processStandard (oracle s) s).2.1 =
      some { id := s.id, name := s.name, type_ := s.type_,
             old_version := o, new_version := v, detected_at := dt } := by
    rw [hor]
    simp [processStandard, hv, hcv, ho, hne]
  have hcv' : (processStandard (oracle s) s).1.current_version = some v := by
    rw [hor]
    simp [processStandard, hv, hcv, ho, hne]
  have hmem : ({ id := s.id, name := s.name, type_ := s.type_,
                 old_version := o, new_version := v, detected_at := dt } :
                ChangeEvent) ∈ (run_monitor oracle now h).2.2.1 :=
    mem_events_processCategories oracle hcat hs hev
  have hne' : (run_monitor oracle now h).2.2.1 ≠ [] := by
    intro hnil
    rw [hnil] at hmem
    cases hmem
  have hie : ((processCategories oracle h.standards).2.1).isEmpty = false := by
    simpa [List.isEmpty_iff] using hne'
  refine ⟨hev, hcv', hmem, ?_, ?_⟩
  · show (if ((processCategories oracle h.standards).2.1).isEmpty then
            h.update_history
          else (((processCategories oracle h.standards).2.1).foldl
                  (fun acc u => u :: acc) h.update_history).take 100) = _
    rw [hie, foldl_insert_head]
    rfl
  · show (if ((processCategories oracle h.standards).2.1).isEmpty then
            h.update_history
          else (((processCategories oracle h.standards).2.1).foldl
                  (fun acc u => u :: acc) h.update_history).take 100).length ≤ 100
    rw [hie]
    simp only [Bool.false_eq_true, if_false, List.length_take]
    exact Nat.min_le_left _ _

theorem claim_C4_witness :
    (processStandard (oracleNewDate stdFCC0) stdFCC0).2.1 =
      some { id := stdFCC0.id, name := stdFCC0.name, type_ := stdFCC0.type_,
             old_version := "2024-10-01", new_version := "2025-09-30",
             detected_at := "2025-10-01 08:00:00" } ∧
    (processStandard (oracleNewDate stdFCC0) stdFCC0).1.current_version =
      some "2025-09-30" ∧
    ({ id := stdFCC0.id, name := stdFCC0.name, type_ := stdFCC0.type_,
       old_version := "2024-10-01", new_version := "2025-09-30",
       detected_at := "2025-10-01 08:00:00" } : ChangeEvent) ∈
      (run_monitor oracleNewDate "T2" snapFCC).2.2.1 ∧
    (run_monitor oracleNewDate "T2" snapFCC).1.update_history =
      (((run_monitor oracleNewDate "T2" snapFCC).2.2.1).reverse ++
        snapFCC.update_history).take 100 ∧
    (run_monitor oracleNewDate "T2" snapFCC).1.update_history.length ≤ 100 :=
  claim_C4 oracleNewDate "T2" snapFCC "FCC" [stdFCC0] stdFCC0 (by decide)
    (by decide) "2024-10-01" "2025-09-30" "2025-10-01 08:00:00" rfl (by decide)
    rfl (by decide) (by decide)

/-! ## Second-run lemmas for idempotence -/

theorem processStandard_dyn (r : Option (String × String)) (s : Standard) :
    ∃ cv lc, (processStandard r s).1 = setDynamic s cv lc := by
  rcases r with _ | ⟨v, dt⟩
  · exact ⟨s.current_version, s.last_checked, rfl⟩
  · by_cases hv : v = ""
    · subst hv
      exact ⟨s.current_version, s.last_checked,
        by simp [processStandard, setDynamic]⟩
    · rcases hc : s.current_version with _ | old
      · exact ⟨some v, some dt, by simp [processStandard, hv, hc, setDynamic]⟩
      · by_cases h1 : old ≠ "" ∧ old ≠ v
        · exact ⟨some v, some dt, by simp [processStandard, hv, hc, h1, setDynamic]⟩
        · by_cases h2 : old = ""
          · exact ⟨some v, some dt, by simp [processStandard, hv, hc, h1, h2, setDynamic]⟩
          · have hov : old = v := by tauto
            exact ⟨s.current_version, some dt,
              by simp [processStandard, hv, hc, h1, h2, hov, setDynamic]⟩

theorem processStandard_version (s : Standard) (v dt : String) (hv : v ≠ "") :
    ((processStandard (some (v, dt)) s).1).current_version = some v := by
  rcases hc : s.current_version with _ | old
  · simp [processStandard, hv, hc]
  · by_cases h1 : old ≠ "" ∧ old ≠ v
    · simp [processStandard, hv, hc, h1]
    · by_cases h2 : old = ""
      · simp [processStandard, hv, hc, h1, h2]
      · have hov : old = v := by tauto
        simp [processStandard, hv, hc, h1, h2, hov]

theorem processStandard_noChange (s : Standard) (v dt : String) (hv : v ≠ "")
    (hcv : s.current_version = some v) :
    (processStandard (some (v, dt)) s).2.1 = none := by
  simp [processStandard, hv, hcv]

theorem processStandard_twice (oracle : Standard → Option (String × String))
    (hstatic : ∀ s cv lc, oracle (setDynamic s cv lc) = oracle s)
    (s : Standard) :
    (processStandard (oracle ((processStandard (oracle s) s).1))
        ((processStandard (oracle s) s).1)).2.1 = none := by
  obtain ⟨cv, lc, hdyn⟩ := processStandard_dyn (oracle s) s
  have hs' : oracle ((processStandard (oracle s) s).1) = oracle s := by
    rw [hdyn, hstatic]
  rw [hs']
  rcases ho : oracle s with _ | ⟨v, dt⟩
  · rfl
  · by_cases hv : v = ""
    · subst hv
      simp [processStandard]
    · exact processStandard_noChange _ v dt hv
        (processStandard_version s v dt hv)

theorem processStandards_twice (oracle : Standard → Option (String × String))
    (hstatic : ∀ s cv lc, oracle (setDynamic s cv lc) = oracle s)
    (ss : List Standard) :
    (processStandards oracle (processStandards oracle ss).1).2.1 = [] := by
  induction ss with
  | nil => rfl
  | cons a rest ih =>
    show (processStandards oracle
        ((processStandard (oracle a) a).1 :: (processStandards oracle rest).1)).2.1 = []
    simp [processStandards, ih, processStandard_twice oracle hstatic a]

theorem processCategories_twice (oracle : Standard → Option (String × String))
    (hstatic : ∀ s cv lc, oracle (setDynamic s cv lc) = oracle s)
    (cats : List (String × List Standard)) :
    (processCategories oracle (processCategories oracle cats).1).2.1 = [] := by
  induction cats with
  | nil => rfl
  | cons c rest ih =>
    show (processCategories oracle
        ((c.1, (processStandards oracle c.2).1) :: (processCategories oracle rest).1)).2.1 = []
    simp [processCategories, ih, processStandards_twice oracle hstatic c.2]

/-- Claim C9: for every snapshot and every fixed remote document set (an
oracle reading only the static fields of a standard), running the engine
twice in succession produces no ChangeEvents on the second run and leaves
`update_history` identical to its value after the first run. -/
theorem claim_C9 (oracle : Standard → Option (String × String))
    (hstatic : ∀ s cv lc, oracle (setDynamic s cv lc) = oracle s)
    (now1 now2 : String) (h : HistorySnapshot) :
    (run_monitor oracle now2 (run_monitor oracle now1 h).1).2.2.1 = [] ∧
    (run_monitor oracle now2 (run_monitor oracle now1 h).1).1.update_history =
      (run_monitor oracle now1 h).1.update_history := by
  have hupd : (run_monitor oracle now2 (run_monitor oracle now1 h).1).2.2.1 = [] := by
    show (processCategories oracle (run_monitor oracle now1 h).1.standards).2.1 = []
    have hstd : (run_monitor oracle now1 h).1.standards =
        (processCategories oracle h.standards).1 := rfl
    rw [hstd]
    exact processCategories_twice oracle hstatic h.standards
  exact ⟨hupd, run_monitor_no_updates oracle now2 _ hupd⟩

theorem claim_C9_witness :
    (run_monitor oracleByUrl "T2" (run_monitor oracleByUrl "T1" snapFCC).1).2.2.1 = [] ∧
    (run_monitor oracleByUrl "T2" (run_monitor oracleByUrl "T1" snapFCC).1).1.update_history =
      (run_monitor oracleByUrl "T1" snapFCC).1.update_history :=
  claim_C9 oracleByUrl (fun _ _ _ => rfl) "T1" "T2" snapFCC
